import Mathlib

/-!
Verification of the two scripts in this repository:
the Axial Coding Reporter (src/archives/evals/10-13/axial-coding-analysis.py)
and the Batch Output Fetcher
(src/archives/batch-processing-old/download-batch-output.py).
The Python code is shallowly embedded: the Reporter becomes a pure list of
printed lines, the Fetcher becomes a function from its environment, its remote
oracle and its argument to the trace of observable events, an exit code, and a
returned value.
-/

/-! Axial Coding Reporter: the static mapping, transcribed verbatim from the
source (an ordered association list, since Python dicts preserve insertion
order). -/

/-- The literal `axial_code_mapping` dict of the Reporter, as an ordered list
of (category, open codes) pairs. -/
def axial_code_mapping : List (String × List String) := [
  ("Energy Classification Errors", [
    "Energy score is incorrect",
    "should be High instead of Medium.",
    "Energy score is incorrect. Energy should be High because of how upbeat and energetic the song is & medium energy songs are not described as being energetic.",
    "Energy is incorrect – should be Very High instead of high.",
    "Energy is off based on how Raina approaches this – should be High instead of Medium. That said",
    "this is a tricky one.",
    "Energy is incorrect – Energy should be High instead of Medium",
    "Song is described as a club banger but labelled as high energy instead of very high .",
    "Energy is incorrect - should definitely be a very high energy track meant for a club dancefloor.",
    "Energy should be very high – if it is being played in stadiums and is an arena rock track",
    "that should be taken into account.",
    "Energy should be very high instead of high",
    "Should be medium energy",
    "only feels like low energy because of the tempo but is a medium energy track",
    "Energy should be very low given there is no movement at all within it and no percussion. If it is on yoga and meditation playlists",
    "usually should be very low.",
    "should be a high energy track given how energetic the chorus is",
    "only feels medium because of tempo",
    "Has a singalong feel to it which should make it high energy at the least",
    "Energy should be medium - more of a groovy track",
    "yes you could dance to it but it is more consistent through the track energy wise.",
    "Energy should be medium - context mentions easy listening which should flag it as medium energy instead of low energy. Can we maybe consider having the reasoning specify why a track is tagged as such?",
    "Energy should be high instead of medium – catchy hook and upbeat nature of the song + overall singalong factor should bump it up",
    "Energy should be very low – track has no percussion or rhythm",
    "Energy is tricky here but should be a high energy track if you play this loud as it has a dance feel. Context mentions it as such and it should take note of that",
    "should be in very low – it even mentions it in the reasoning and should include a review step to make sure. if it\x27s also on relaxation and calming sleep playlists",
    "should be flagged as very low.",
    "Should be tagged as low energy - very dreamy and relaxed as opposed to more upbeat."
  ]),
  ("Accessibility Classification Errors", [
    "Accessibility is incorrect - should really be a Cheesy song as it is very bubble-gum like and really only has play on the radio",
    "Accessibility score is incorrect – should be cheesy instead of commercial. This is an instance where if we had a confidence score and it came back as less than 100%",
    "i would have been fine with this.",
    "Accessibility should also be Cheesy given how widespread the song is. Energy should also be very high given how anthemic the song is. Missed the most accurate subgenre which is also not on the list - 2000s Pop Punk.",
    "Should be cheesy. explicitly became a tik tok song and has one hit wonder status which is in the prompt as well."
  ]),
  ("Subgenre Classification Issues", [
    "Subgenre suggested was not in the list of provided subgenres.",
    "Did not classify it as the most accurate subgenre: 2000s Indie Rock. It mentions it multiple times in the reasoning but does not decide to classify it as such.",
    "Did not suggest most accurate subgenre description: Pop Dance. Indie Pop would have also been acceptable here.",
    "suggested a subgenre that was not on the list",
    "secondary subgenre was not correct",
    "The sub-genres that were suggested were too literal and did not take into account the wider context.",
    "Suggested EDM Classics as a secondary subgenre which is incorrect since EDM only came about in the 2010s+",
    "Secondary Subgenre suggested is not Indie Electronica",
    "first two values alone are fine.",
    "suggested the same subgenre twice",
    "Secondary subgenre - indie electronica - is incorrectly suggested",
    "Suggests 90s dance even though the song came out in the 2010s",
    "misunderstands what 90s dance or decade specific genres may refer to",
    "labelled song as 90s dance when the song came out in the 2000s",
    "Secondary subgenres suggested are inaccurate",
    "not really an edm song or a hip-hop song.",
    "Suggested a subgenre that was not from the full list",
    "Suggested modern dance but does not really fit the song",
    "Missed the most accurate subgenre - Pop Dance but overall still useful",
    "Suggested EDM Classics which is not accurate",
    "Suggests 2000s dance which is not accurate given that should be only for electronic/house music of the era",
    "best fit subgenre appeared last (2010s pop)",
    "Suggested subgenre that is not in the list of subgenres provided.",
    "Suggested Soft Rock when it is not a soft track by any means",
    "Suggested hip-hop instrumental when the track is not an instrumental track",
    "Missed the best fit subgenre for our use-case which is 2010s Indie Pop.",
    "Should not have suggested Indie Soft Pop in this use-case",
    "does not really make sense here as there are no vocals. curious as to why it did?",
    "Missed best fit subgenres like 2020s Indie Pop and Refined Covers. worth adding a note about covers and where they should be categorized.",
    "Missed best fit subgenre for our intents and purposes which is 2020s Indie Pop.",
    "it feels like the subgenre could also be modern funk too since it is a modern funk track and thats where iwould want this track to be next to all the khruangbin.",
    "Missed key subgenre which is Afro Nu-Disco. It can be Disco Edits but the other two are not a good fit. I would also argue that this is medium energy since it has a very steady beat.",
    "Subgenre should not be instrumental or instrumentally based subgenres as it has a vocal. Neo Soul or Modern Soul would be a much better fit here.",
    "Missed most accurate subgenre which is Jazz Standards",
    "Primary subgenre would be indie pop and it mentions indie soft pop instead. Indie Soft Pop should be defined accordingly",
    "Flagged Jazz & Piano and Funk & Soul Classics as a subgenres which relates to the sample in the song vs. what the actual genre of the song is.",
    "Fails to mention the most relevant subgenre: 2000s Indie Rock – it is mentioned in the context and reasoning but does mention it accordingly.",
    "Flags it as funk classics or disco edits when it is neither of them. Would rather it flag it as Disco Classics if anything",
    "Mentions Lounge/Chill Out genre in the reasoning but does not manage to pattern match it which would make it a better fit.",
    "Track should not be flagged as two types of nu-disco - defining the agnostic terms and what they mean should be helpful here.",
    "Would have also liked to see Alternative R&B – maybe it\x27s worth defining what that term means?"
  ]),
  ("Reasoning & Context Issues", [
    "Reasoning suggests very clear hallucination and context dropoff. Energy is very off for this song. Should be classified as High or frankly",
    "even very High. Accessibility should also be Cheesy for this song given widespread radio fame and cultural connotations around it.",
    "Has no percussion or rhythm to it and should be flagged as very low. Reasoning mentions deep listening",
    "non instrusive soundscape",
    "Got this completely correct based off of the title alone but should have flagged it as requires human review given that it was unable to find any context about the song whatsoever"
  ]),
  ("Technical Errors", [
    "503 error",
    "went ahead with the search even though artist & title were not correctly input",
    "should return error value",
    "503 error due to rate limits",
    "503 rate limit error"
  ]),
  ("Needs Review / Ambiguous", [
    "Needs further review amongst Raina Team",
    "no issues found.",
    "Flagged it as an instrumental whne it has vocals."
  ])
]

/-- The string a Python `c * 80` banner produces for a single character. -/
def hrule (c : Char) : String := String.mk (List.replicate 80 c)

/-- The lines printed for one category in the first loop of the Reporter:
the upper-cased name (preceded by the blank line of the newline in the
f-string), a dash rule, the total count, the sample header, and the first
three codes. -/
def categoryBlock (category : String) (codes : List String) : List String :=
  ["\n" ++ category.toUpper,
   hrule '-',
   "Total codes: " ++ toString codes.length,
   "Sample codes:"]
  ++ (codes.take 3).map (fun code => "  - " ++ code)

/-- The line printed for one category in the summary loop of the Reporter. -/
def summaryLine (p : String × List String) : String :=
  p.1 ++ ": " ++ toString p.2.length ++ " codes"

/-- The full sequence of strings the Reporter passes to print, in order:
banner, one block per category in mapping order, summary banner, one summary
line per category in mapping order. -/
def reportOutput : List String :=
  ([hrule '=', "PROPOSED AXIAL CODE CATEGORIES", hrule '=', ""]
   ++ (axial_code_mapping.map (fun p => categoryBlock p.1 p.2)).flatten
   ++ ["\n" ++ hrule '=', "CATEGORY SUMMARY", hrule '=']
   ++ axial_code_mapping.map summaryLine)

/-- Running the Reporter script: it consults neither its arguments nor the
environment, performs no fallible operation, prints `reportOutput` and
terminates normally (exit code 0). -/
def reporterRun (_args : List String) (_env : String → Option String) :
    List String × Nat :=
  (reportOutput, 0)

/-! Batch Output Fetcher: shallow embedding of download-batch-output.py.
Optional attributes of the SDK objects become Option fields (a `none`
destination models the attribute being absent, so that reading it raises
AttributeError); the remote service is an oracle of two functions that either
return a value or raise; file bytes are a list of byte values; the observable
behaviour is the ordered trace of prints, remote calls and file writes,
together with the process exit code (0 = normal termination of main) and the
value the function returns. -/

/-- The `batch.dest` destination descriptor; `file_name` is `none` when the
attribute is absent. -/
structure Dest where
  file_name : Option String
deriving DecidableEq

/-- The batch-job metadata object; `dest` is `none` when the `dest` attribute
itself is absent from the object. -/
structure BatchJob where
  state : String
  display_name : String
  dest : Option Dest
deriving DecidableEq

/-- One observable step of the Fetcher. `write` is the single truncating
binary write of the whole byte string (Python open mode wb), so it overwrites
any existing file. `printDest` is the warning line that interpolates the raw
`batch.dest` value. -/
inductive FetchEvent where
  | print (msg : String)
  | printDest (d : Dest)
  | getBatch (name : String)
  | download (file : String)
  | write (path : List String) (data : List Nat)
deriving DecidableEq

/-- The remote service oracle: `batches_get` models `client.batches.get`,
`files_download` models `client.files.download`; an `error` result models the
call raising an exception with that message. -/
structure Remote where
  batches_get : String → Except String BatchJob
  files_download : String → Except String (List Nat)

/-- Paths are lists of components; `os.path.dirname` drops the last one. -/
def os_path_dirname (p : List String) : List String := p.dropLast

/-- The directory holding the script, `os.path.dirname(os.path.abspath(__file__))`. -/
def script_dir (script_path : List String) : List String :=
  os_path_dirname script_path

/-- The project root, the parent directory of the script directory. -/
def project_root (script_path : List String) : List String :=
  os_path_dirname (script_dir script_path)

/-- The fixed output path, `os.path.join(project_root, "outputs", "batch-output.jsonl")`. -/
def output_path (script_path : List String) : List String :=
  project_root script_path ++ ["outputs", "batch-output.jsonl"]

/-- Rendering a component path as the string the status message prints. -/
def joinPath (p : List String) : String := String.intercalate "/" p

/-- The `download_batch_output` function. Returns the event trace, the
process exit code (1 for every `sys.exit(1)` path, 0 when the function
returns normally and main then finishes), and the returned output path.
The inner `sys.exit(1)` of the missing-file-name branch raises SystemExit,
which the `except Exception` clause does not catch; when the `dest`
attribute is absent, the warning f-string itself raises AttributeError
before the raw destination is printed, and the generic handler reports the
exception and exits. -/
def download_batch_output (env : String → Option String) (client : Remote)
    (script_path : List String) (batch_name : String) :
    List FetchEvent × Nat × Option (List String) :=
  if (env "GEMINI_API_KEY").getD "" = "" then
    ([.print "❌ Error: GEMINI_API_KEY not found in environment"], 1, none)
  else
    let ev0 : List FetchEvent :=
      [.print ("📥 Retrieving batch job: " ++ batch_name ++ "\n"),
       .getBatch batch_name]
    match client.batches_get batch_name with
    | .error e =>
        (ev0 ++ [.print ("❌ Error: " ++ e)], 1, none)
    | .ok batch =>
        let ev1 : List FetchEvent := ev0 ++
          [.print "✅ Batch job retrieved!",
           .print ("📊 State: " ++ batch.state),
           .print ("📝 Display name: " ++ batch.display_name)]
        match batch.dest with
        | some d =>
          match d.file_name with
          | some fn =>
            let ev2 : List FetchEvent := ev1 ++
              [.print ("📁 Output file: " ++ fn ++ "\n"),
               .print "Downloading file content...",
               .download fn]
            match client.files_download fn with
            | .error e => (ev2 ++ [.print ("❌ Error: " ++ e)], 1, none)
            | .ok file_data =>
              let op := output_path script_path
              (ev2 ++ [.write op file_data,
                       .print "✅ Saved successfully!",
                       .print ("📁 File: " ++ joinPath op),
                       .print ("📊 Size: " ++ toString file_data.length ++ " bytes\n")],
               0, some op)
          | none =>
            (ev1 ++ [.print "⚠️  No output file found in batch.dest",
                     .printDest d],
             1, none)
        | none =>
          (ev1 ++ [.print "⚠️  No output file found in batch.dest",
                   .print "❌ Error: AttributeError: the object has no attribute dest"],
           1, none)

/-- The literal default batch-job name of the `__main__` block. -/
def default_batch_name : String := "batches/atdpuj01cvry22of15w27crr43vuipp3zypt"

/-- The job reference the `__main__` block selects: `sys.argv[1]` when
`len(sys.argv) > 1`, the literal default otherwise (`argv` is the full
`sys.argv`, program name included). -/
def main_batch_name (argv : List String) : String :=
  if h : 1 < argv.length then argv.get ⟨1, h⟩ else default_batch_name

/-- The whole script run: the `__main__` block selects the job reference and
calls `download_batch_output`. -/
def fetcher_main (argv : List String) (env : String → Option String)
    (client : Remote) (script_path : List String) :
    List FetchEvent × Nat × Option (List String) :=
  download_batch_output env client script_path (main_batch_name argv)

/-- Selects a write event. -/
def eventWrite? : FetchEvent → Option (List String × List Nat)
  | .write p d => some (p, d)
  | _ => none

/-- Selects a remote metadata query event. -/
def eventGetBatch? : FetchEvent → Option String
  | .getBatch n => some n
  | _ => none

/-- Selects a remote download event. -/
def eventDownload? : FetchEvent → Option String
  | .download f => some f
  | _ => none

/-- Selects a print of the raw destination value. -/
def eventPrintDest? : FetchEvent → Option Dest
  | .printDest d => some d
  | _ => none

/-- Whether a run reaches a successful download of a present destination
file-name: the credential is set and non-empty, the metadata call succeeds,
the destination attribute is present and carries a file-name, and the
download succeeds. -/
def successfulFetch (env : String → Option String) (client : Remote)
    (batch_name : String) : Bool :=
  decide ((env "GEMINI_API_KEY").getD "" ≠ "") &&
  (match client.batches_get batch_name with
   | .error _ => false
   | .ok batch =>
     match batch.dest with
     | none => false
     | some d =>
       match d.file_name with
       | none => false
       | some fn =>
         match client.files_download fn with
         | .error _ => false
         | .ok _ => true)

/-! Concrete fixtures used by the closed witness theorems. -/

/-- An environment holding only the credential. -/
def envWithKey : String → Option String :=
  fun k => if k = "GEMINI_API_KEY" then some "test-key" else none

/-- An empty environment. -/
def envEmpty : String → Option String := fun _ => none

/-- A remote oracle whose metadata carries a file-name and whose download
returns two bytes. -/
def clientOk : Remote :=
  ⟨fun _ => .ok ⟨"JOB_STATE_SUCCEEDED", "music-batch", some ⟨some "files/output-1"⟩⟩,
   fun _ => .ok [104, 105]⟩

/-- A remote oracle whose metadata has a destination without a file-name. -/
def clientNoFileName : Remote :=
  ⟨fun _ => .ok ⟨"JOB_STATE_SUCCEEDED", "music-batch", some ⟨none⟩⟩,
   fun _ => .error "unreachable"⟩

/-- A remote oracle whose metadata lacks the dest attribute entirely. -/
def clientNoDest : Remote :=
  ⟨fun _ => .ok ⟨"JOB_STATE_SUCCEEDED", "music-batch", none⟩,
   fun _ => .error "unreachable"⟩

/-- A remote oracle whose metadata call raises. -/
def clientErr : Remote :=
  ⟨fun _ => .error "503 rate limit", fun _ => .error "503 rate limit"⟩

/-- The script's own path, as components. -/
def samplePath : List String :=
  ["repo", "archives", "batch-processing-old", "download-batch-output.py"]

/-! Theorems for the Axial Coding Reporter claims. -/

/-- C2: the Reporter, run with no arguments, prints exactly six category
blocks in the declaration order of the mapping, each block showing a count
equal to the true length of that category's list, and the final six lines of
the run are the summary lines, one per category in the same order, reading
category colon count codes with the same counts. -/
theorem reporter_six_blocks_summary_counts_match :
    axial_code_mapping.length = 6 ∧
    (axial_code_mapping.map (fun p => (categoryBlock p.1 p.2).get? 2))
      = axial_code_mapping.map (fun p => some ("Total codes: " ++ toString p.2.length)) ∧
    reportOutput.drop (reportOutput.length - 6)
      = axial_code_mapping.map (fun p => p.1 ++ ": " ++ toString p.2.length ++ " codes") ∧
    (reporterRun [] envEmpty).1 = reportOutput ∧ (reporterRun [] envEmpty).2 = 0 :=
  ⟨rfl, rfl, rfl, rfl, rfl⟩

/-- C7: for every category of the mapping, the sample lines of its block are
exactly the first codes of its list, verbatim and in list order, and their
number is min(3, total count). -/
theorem reporter_samples_first_min_three
    (p : String × List String) (_hp : p ∈ axial_code_mapping) :
    (categoryBlock p.1 p.2).drop 4
      = (p.2.take 3).map (fun code => "  - " ++ code) ∧
    ((categoryBlock p.1 p.2).drop 4).length = min 3 p.2.length := by
  constructor
  · simp [categoryBlock]
  · simp [categoryBlock]

/-- Witness for C7 at the Technical Errors category. -/
theorem reporter_samples_first_min_three_witness :
    axial_code_mapping.getD 4 ("", []) ∈ axial_code_mapping ∧
    ((categoryBlock (axial_code_mapping.getD 4 ("", [])).1
        (axial_code_mapping.getD 4 ("", [])).2).drop 4
      = ((axial_code_mapping.getD 4 ("", [])).2.take 3).map
          (fun code => "  - " ++ code) ∧
     ((categoryBlock (axial_code_mapping.getD 4 ("", [])).1
        (axial_code_mapping.getD 4 ("", [])).2).drop 4).length
      = min 3 (axial_code_mapping.getD 4 ("", [])).2.length) :=
  ⟨by decide, reporter_samples_first_min_three _ (by decide)⟩

/-- C10: every one of the six category lists holds at least three codes, so
the min(3, count) sample bound is attained at three in every block. -/
theorem reporter_every_category_three_samples
    (p : String × List String) (hp : p ∈ axial_code_mapping) :
    3 ≤ p.2.length ∧ ((categoryBlock p.1 p.2).drop 4).length = 3 := by
  have hall : axial_code_mapping.all (fun q => decide (3 ≤ q.2.length)) = true := by
    decide
  have h3 : 3 ≤ p.2.length := of_decide_eq_true (List.all_eq_true.mp hall p hp)
  refine ⟨h3, ?_⟩
  simp [categoryBlock]
  omega

/-- Witness for C10 at the Needs Review category. -/
theorem reporter_every_category_three_samples_witness :
    axial_code_mapping.getD 5 ("", []) ∈ axial_code_mapping ∧
    (3 ≤ (axial_code_mapping.getD 5 ("", [])).2.length ∧
     ((categoryBlock (axial_code_mapping.getD 5 ("", [])).1
        (axial_code_mapping.getD 5 ("", [])).2).drop 4).length = 3) :=
  ⟨by decide, reporter_every_category_three_samples _ (by decide)⟩

/-- C8: the Reporter is deterministic and total: two runs with any arguments
and any environments print the same output, and every run exits 0. -/
theorem reporter_deterministic_exit_zero
    (args1 args2 : List String) (env1 env2 : String → Option String) :
    reporterRun args1 env1 = reporterRun args2 env2 ∧
    (reporterRun args1 env1).2 = 0 :=
  ⟨rfl, rfl⟩

/-- Witness for C8 at two distinct concrete runs. -/
theorem reporter_deterministic_exit_zero_witness :
    reporterRun ["unexpected-flag"] envWithKey = reporterRun [] envEmpty ∧
    (reporterRun ["unexpected-flag"] envWithKey).2 = 0 :=
  reporter_deterministic_exit_zero ["unexpected-flag"] [] envWithKey envEmpty

/-! Theorems for the Batch Output Fetcher claims. -/

/-- C1: with a non-empty credential, metadata carrying a destination
file-name, and a download returning a byte string, the Fetcher performs
exactly one write, of exactly those bytes, to
project-root/outputs/batch-output.jsonl where the project root is the parent
of the script's directory, and the process exits 0. -/
theorem fetcher_success_writes_exact_bytes
    (env : String → Option String) (client : Remote)
    (script_path : List String) (batch_name st dn fn : String)
    (data : List Nat)
    (hkey : (env "GEMINI_API_KEY").getD "" ≠ "")
    (hget : client.batches_get batch_name = .ok ⟨st, dn, some ⟨some fn⟩⟩)
    (hdl : client.files_download fn = .ok data) :
    (download_batch_output env client script_path batch_name).2.1 = 0 ∧
    (download_batch_output env client script_path batch_name).1.filterMap eventWrite?
      = [(output_path script_path, data)] ∧
    output_path script_path
      = (script_path.dropLast).dropLast ++ ["outputs", "batch-output.jsonl"] := by
  refine ⟨?_, ?_, rfl⟩ <;>
    simp [download_batch_output, hkey, hget, hdl, eventWrite?]

/-- Witness for C1 at a concrete successful run of two bytes. -/
theorem fetcher_success_writes_exact_bytes_witness :
    (envWithKey "GEMINI_API_KEY").getD "" ≠ "" ∧
    ((download_batch_output envWithKey clientOk samplePath "batches/job-1").2.1 = 0 ∧
     (download_batch_output envWithKey clientOk samplePath "batches/job-1").1.filterMap eventWrite?
       = [(output_path samplePath, [104, 105])] ∧
     output_path samplePath
       = (samplePath.dropLast).dropLast ++ ["outputs", "batch-output.jsonl"]) :=
  ⟨by decide,
   fetcher_success_writes_exact_bytes envWithKey clientOk samplePath "batches/job-1"
     "JOB_STATE_SUCCEEDED" "music-batch" "files/output-1" [104, 105]
     (by decide) rfl rfl⟩

/-- C3: without a credential (absent or empty), the Fetcher prints the error
and exits 1, and its trace holds no remote call of either kind. -/
theorem fetcher_no_credential_no_network
    (env : String → Option String) (client : Remote)
    (script_path : List String) (batch_name : String)
    (h : (env "GEMINI_API_KEY").getD "" = "") :
    download_batch_output env client script_path batch_name
      = ([.print "❌ Error: GEMINI_API_KEY not found in environment"], 1, none) ∧
    (download_batch_output env client script_path batch_name).1.filterMap eventGetBatch? = [] ∧
    (download_batch_output env client script_path batch_name).1.filterMap eventDownload? = [] := by
  have h1 : download_batch_output env client script_path batch_name
      = ([.print "❌ Error: GEMINI_API_KEY not found in environment"], 1, none) := by
    simp [download_batch_output, h]
  refine ⟨h1, ?_, ?_⟩ <;> rw [h1] <;> rfl

/-- Witness for C3 at the empty environment. -/
theorem fetcher_no_credential_no_network_witness :
    (envEmpty "GEMINI_API_KEY").getD "" = "" ∧
    (download_batch_output envEmpty clientOk samplePath "batches/job-2"
      = ([.print "❌ Error: GEMINI_API_KEY not found in environment"], 1, none) ∧
     (download_batch_output envEmpty clientOk samplePath "batches/job-2").1.filterMap eventGetBatch? = [] ∧
     (download_batch_output envEmpty clientOk samplePath "batches/job-2").1.filterMap eventDownload? = []) :=
  ⟨rfl, fetcher_no_credential_no_network envEmpty clientOk samplePath "batches/job-2" rfl⟩

/-- C4: a successful metadata response whose destination lacks the file-name
field makes the Fetcher exit 1 with no write event in its trace. -/
theorem fetcher_missing_file_name_no_write
    (env : String → Option String) (client : Remote)
    (script_path : List String) (batch_name st dn : String)
    (hkey : (env "GEMINI_API_KEY").getD "" ≠ "")
    (hget : client.batches_get batch_name = .ok ⟨st, dn, some ⟨none⟩⟩) :
    (download_batch_output env client script_path batch_name).2.1 = 1 ∧
    (download_batch_output env client script_path batch_name).1.filterMap eventWrite? = [] := by
  constructor <;> simp [download_batch_output, hkey, hget, eventWrite?]

/-- Witness for C4 at a concrete destination without a file-name. -/
theorem fetcher_missing_file_name_no_write_witness :
    (envWithKey "GEMINI_API_KEY").getD "" ≠ "" ∧
    ((download_batch_output envWithKey clientNoFileName samplePath "batches/job-3").2.1 = 1 ∧
     (download_batch_output envWithKey clientNoFileName samplePath "batches/job-3").1.filterMap eventWrite? = []) :=
  ⟨by decide,
   fetcher_missing_file_name_no_write envWithKey clientNoFileName samplePath
     "batches/job-3" "JOB_STATE_SUCCEEDED" "music-batch" (by decide) rfl⟩

/-- C5 counterexample: with the credential set and a successful metadata
response that lacks the dest attribute entirely, the run exits 1 but its
trace holds no print of the raw destination value — evaluating the warning
f-string raises before that line is emitted, so the claimed warning is not
printed for this metadata shape. -/
theorem fetcher_warning_raw_dest_counterexample :
    (download_batch_output envWithKey clientNoDest samplePath "batches/job-4").1.filterMap
      eventPrintDest? = [] ∧
    (download_batch_output envWithKey clientNoDest samplePath "batches/job-4").2.1 = 1 :=
  ⟨rfl, rfl⟩

/-- C5 amended: when the destination attribute is present but its file-name
field is absent, the Fetcher prints the warning carrying the raw destination
value and exits 1. -/
theorem fetcher_warning_includes_raw_dest
    (env : String → Option String) (client : Remote)
    (script_path : List String) (batch_name st dn : String)
    (hkey : (env "GEMINI_API_KEY").getD "" ≠ "")
    (hget : client.batches_get batch_name = .ok ⟨st, dn, some ⟨none⟩⟩) :
    (download_batch_output env client script_path batch_name).1.filterMap
      eventPrintDest? = [⟨none⟩] ∧
    (download_batch_output env client script_path batch_name).2.1 = 1 := by
  constructor <;> simp [download_batch_output, hkey, hget, eventPrintDest?]

/-- Witness for the amended C5 at a concrete destination without a
file-name. -/
theorem fetcher_warning_includes_raw_dest_witness :
    (envWithKey "GEMINI_API_KEY").getD "" ≠ "" ∧
    ((download_batch_output envWithKey clientNoFileName samplePath "batches/job-5").1.filterMap
       eventPrintDest? = [⟨none⟩] ∧
     (download_batch_output envWithKey clientNoFileName samplePath "batches/job-5").2.1 = 1) :=
  ⟨by decide,
   fetcher_warning_includes_raw_dest envWithKey clientNoFileName samplePath
     "batches/job-5" "JOB_STATE_SUCCEEDED" "music-batch" (by decide) rfl⟩

/-- The argument selection of the main block equals list lookup with the
literal default. -/
theorem main_batch_name_eq_getD (argv : List String) :
    main_batch_name argv = argv.getD 1 default_batch_name := by
  rcases argv with _ | ⟨a, _ | ⟨b, t⟩⟩ <;>
    simp [main_batch_name, List.getD]

/-- With a non-empty credential the trace holds exactly one metadata query,
carrying the batch name that was passed in, whatever the oracle answers. -/
theorem download_queries_once
    (env : String → Option String) (client : Remote)
    (script_path : List String) (batch_name : String)
    (hkey : (env "GEMINI_API_KEY").getD "" ≠ "") :
    (download_batch_output env client script_path batch_name).1.filterMap
      eventGetBatch? = [batch_name] := by
  rcases hb : client.batches_get batch_name with e | ⟨st, dn, dst⟩
  · simp [download_batch_output, hkey, hb, eventGetBatch?]
  · rcases dst with _ | ⟨_ | fn⟩
    · simp [download_batch_output, hkey, hb, eventGetBatch?]
    · simp [download_batch_output, hkey, hb, eventGetBatch?]
    · rcases hd : client.files_download fn with e | data <;>
        simp [download_batch_output, hkey, hb, hd, eventGetBatch?]

/-- C6: a full run queries the remote service exactly once, with the first
command-line argument when one is supplied and with the literal default
constant otherwise. -/
theorem fetcher_query_uses_argument_or_default
    (argv : List String) (env : String → Option String) (client : Remote)
    (script_path : List String)
    (hkey : (env "GEMINI_API_KEY").getD "" ≠ "") :
    (fetcher_main argv env client script_path).1.filterMap eventGetBatch?
      = [argv.getD 1 default_batch_name] := by
  unfold fetcher_main
  rw [download_queries_once env client script_path (main_batch_name argv) hkey,
      main_batch_name_eq_getD]

/-- Witness for C6 at a run with a supplied job reference. -/
theorem fetcher_query_uses_argument_or_default_witness :
    (envWithKey "GEMINI_API_KEY").getD "" ≠ "" ∧
    (fetcher_main ["download-batch-output.py", "batches/custom-job"] envWithKey
        clientOk samplePath).1.filterMap eventGetBatch?
      = [["download-batch-output.py", "batches/custom-job"].getD 1 default_batch_name] :=
  ⟨by decide,
   fetcher_query_uses_argument_or_default
     ["download-batch-output.py", "batches/custom-job"] envWithKey clientOk
     samplePath (by decide)⟩

/-- C9: on every run that does not reach a successful download of a present
destination file-name — missing or empty credential, metadata call raising,
dest attribute absent (where the warning f-string itself raises and the
generic handler reports it), file-name absent, or download raising — the
process exits 1 and the trace holds no write event, so the output file is
never opened. -/
theorem fetcher_failure_exits_nonzero_no_write
    (env : String → Option String) (client : Remote)
    (script_path : List String) (batch_name : String)
    (h : successfulFetch env client batch_name = false) :
    (download_batch_output env client script_path batch_name).2.1 = 1 ∧
    (download_batch_output env client script_path batch_name).1.filterMap
      eventWrite? = [] := by
  by_cases hkey : (env "GEMINI_API_KEY").getD "" = ""
  · constructor <;> simp [download_batch_output, hkey, eventWrite?]
  · rcases hb : client.batches_get batch_name with e | ⟨st, dn, dst⟩
    · constructor <;> simp [download_batch_output, hkey, hb, eventWrite?]
    · rcases dst with _ | ⟨_ | fn⟩
      · constructor <;> simp [download_batch_output, hkey, hb, eventWrite?]
      · constructor <;> simp [download_batch_output, hkey, hb, eventWrite?]
      · rcases hd : client.files_download fn with e | data
        · constructor <;> simp [download_batch_output, hkey, hb, hd, eventWrite?]
        · exfalso
          rw [successfulFetch, hb] at h
          simp [hkey, hd] at h

/-- Witness for C9 at a run whose metadata call raises. -/
theorem fetcher_failure_exits_nonzero_no_write_witness :
    successfulFetch envWithKey clientErr "batches/job-6" = false ∧
    ((download_batch_output envWithKey clientErr samplePath "batches/job-6").2.1 = 1 ∧
     (download_batch_output envWithKey clientErr samplePath "batches/job-6").1.filterMap
       eventWrite? = []) :=
  ⟨rfl,
   fetcher_failure_exits_nonzero_no_write envWithKey clientErr samplePath
     "batches/job-6" rfl⟩
